import Mathlib

/-!
# CSD2 / csd2b / instrument_class

A shallow embedding of `instrument.h` and `instrument.cpp`, and the properties of the
`Instrument` class that follow from the code.

Modelling conventions:

* `std::string` is a Lean `String`; the character sequence written to `std::cout` so far is a
  `String` as well (`Cout`), and `<<` appends to it. The stream is taken in its initial
  formatting state (no field width set) and in a good state, as it is when nothing else in the
  program touches it.
* A member function is a state-passing function: it receives the object it is called on and the
  stream, and it returns the value it returns, the object after the call and the stream after the
  call. `play` is not declared `const`, so the object after the call is part of its result.
* The two constructors share the name of the class in C++; here they are `Instrument.ctor`
  (the one taking the sound) and `Instrument.ctorDefault`, and the destructor is
  `Instrument.dtor`.
* A C++ function may leave by an exception, so every function returns in `Except Exn`.
* Nothing in the four function bodies throws; what can raise is in the library calls they make:
  the copy of a `std::string` asks the free store for memory, and `<<` reports a failure through
  the error state of the stream and raises when the exception mask of the stream asks for it.
  The second part of the file (`Env`, `OStream`, `Instrument.ctorIn`, `Instrument.playIn`, ...)
  embeds the same bodies over these library calls, so that a write that fails and an allocation
  that fails can be expressed. It agrees with the first part on a stream in a good state whose
  device accepts what is written (`playIn_agrees_with_play`, `ctorIn_agrees_with_ctor`).
-/

namespace CSD2

/-- A C++ exception that left a function, with its `what()` text. -/
inductive Exn where
  | thrown (what : String)
  deriving DecidableEq, Repr

/-- The characters written to `std::cout` so far. -/
abbrev Cout := String

/-- The data members of `class Instrument` (`instrument.h`): one protected `std::string sound`. -/
structure Instrument where
  sound : String
  deriving DecidableEq, Repr

/-- What a call of a member function (or of a constructor) leaves behind: the returned value,
the object after the call and the output stream after the call. -/
structure Outcome (α : Type) where
  ret : α
  obj : Instrument
  cout : Cout
  deriving DecidableEq, Repr

/-- The result of a call: an exception, or an outcome. -/
abbrev Result (α : Type) := Except Exn (Outcome α)

/-- `Instrument::Instrument(std::string sound) : sound(sound){}`.
The member `sound` is initialised from the parameter `sound`; the body is empty. -/
def Instrument.ctor (sound : String) (cout : Cout) : Result Unit :=
  .ok { ret := (), obj := { sound := sound }, cout := cout }

/-- `Instrument::Instrument() : Instrument("Bwaahp"){}`.
The delegating constructor: it runs the constructor above on the literal; the body is empty. -/
def Instrument.ctorDefault (cout : Cout) : Result Unit :=
  Instrument.ctor "Bwaahp" cout

/-- `Instrument::~Instrument(){}`.
The body is empty; the object is gone afterwards, so only the stream is returned. -/
def Instrument.dtor (_self : Instrument) (cout : Cout) : Except Exn Cout :=
  .ok cout

/-- `void Instrument::play() { std::cout << this->sound << "\n"; }`. -/
def Instrument.play (self : Instrument) (cout : Cout) : Result Unit :=
  .ok { ret := (), obj := self, cout := cout ++ self.sound ++ "\n" }

/-! ## Client programs

The repository has no `main`; the programs below are the call sequences the properties are
about, written with the functions above. -/

/-- Run `first`, then run `next` on the object and the stream it leaves behind. -/
def andThen {α β : Type} (first : Result α) (next : Instrument → Cout → Result β) : Result β :=
  match first with
  | .error e => .error e
  | .ok r => next r.obj r.cout

/-- `Instrument i(s); i.play();`. -/
def constructAndPlay (s : String) (cout : Cout) : Result Unit :=
  andThen (Instrument.ctor s cout) Instrument.play

/-- `Instrument i; i.play();`. -/
def constructDefaultAndPlay (cout : Cout) : Result Unit :=
  andThen (Instrument.ctorDefault cout) Instrument.play

/-- `i.play();` written `n` times in a row. -/
def playTimes : Nat → Instrument → Cout → Result Unit
  | 0, self, cout => .ok { ret := (), obj := self, cout := cout }
  | n + 1, self, cout => andThen (Instrument.play self cout) (playTimes n)

/-- What two objects and the stream look like after a sequence of calls. -/
structure Pair where
  a : Instrument
  b : Instrument
  cout : Cout
  deriving DecidableEq, Repr

/-- `a.play(); b.play();` on two objects `a` and `b`. -/
def playBoth (a b : Instrument) (cout : Cout) : Except Exn Pair :=
  match Instrument.play a cout with
  | .error e => .error e
  | .ok ra =>
    match Instrument.play b ra.cout with
    | .error e => .error e
    | .ok rb => .ok { a := ra.obj, b := rb.obj, cout := rb.cout }

/-- `Instrument a(s); Instrument b(t);`, then `a.play(); b.play();` when `aFirst` is true and
`b.play(); a.play();` otherwise. -/
def constructTwoAndPlay (s t : String) (aFirst : Bool) (cout : Cout) : Except Exn Pair :=
  match Instrument.ctor s cout with
  | .error e => .error e
  | .ok ra =>
    match Instrument.ctor t ra.cout with
    | .error e => .error e
    | .ok rb =>
      if aFirst then playBoth ra.obj rb.obj rb.cout
      else
        match playBoth rb.obj ra.obj rb.cout with
        | .error e => .error e
        | .ok p => .ok { a := p.b, b := p.a, cout := p.cout }

/-- `Instrument i(s);` followed by the end of the scope of `i`. -/
def constructAndDestroy (s : String) (cout : Cout) : Except Exn Cout :=
  match Instrument.ctor s cout with
  | .error e => .error e
  | .ok r => Instrument.dtor r.obj r.cout

/-! ## The same functions over the library calls that can fail -/

/-- The error state flags of a stream (`std::ios_base::iostate`). -/
structure IoState where
  badbit : Bool
  failbit : Bool
  eofbit : Bool
  deriving DecidableEq, Repr

/-- `std::ios_base::goodbit`: no flag set. It is also the exception mask a stream starts with. -/
def IoState.goodbit : IoState := { badbit := false, failbit := false, eofbit := false }

/-- `a | b` on flags. -/
def IoState.union (a b : IoState) : IoState :=
  { badbit := a.badbit || b.badbit, failbit := a.failbit || b.failbit,
    eofbit := a.eofbit || b.eofbit }

/-- `(a & b) != 0` on flags. -/
def IoState.overlaps (a b : IoState) : Bool :=
  (a.badbit && b.badbit) || (a.failbit && b.failbit) || (a.eofbit && b.eofbit)

/-- What the program does not decide: whether the free store supplies the storage for a string
of `n` characters, and whether the device behind `std::cout`, having taken `written`, takes the
characters `seq` as well. -/
structure Env where
  allocOk : Nat → Bool
  accepts : Cout → String → Bool

/-- The state of `std::cout`: the characters it has taken, its error state (`rdstate()`) and its
exception mask (`exceptions()`). -/
structure OStream where
  written : Cout
  rdstate : IoState
  exceptions : IoState
  deriving DecidableEq, Repr

/-- What a call leaves behind, with the whole stream state. -/
structure OutcomeIn (α : Type) where
  ret : α
  obj : Instrument
  os : OStream
  deriving DecidableEq, Repr

/-- `std::basic_ios::setstate(bits)`, that is `clear(rdstate() | bits)`: the flags are added,
and `std::ios_base::failure` is thrown when a flag that is now set is in the exception mask. -/
def OStream.setstate (os : OStream) (bits : IoState) : Except Exn OStream :=
  if (os.rdstate.union bits).overlaps os.exceptions then
    .error (.thrown "std::ios_base::failure")
  else
    .ok { os with rdstate := os.rdstate.union bits }

/-- One `os << seq` for a `std::string` or a character string, a formatted output function, in
the initial formatting state (no field width): on a stream that is not `good()` nothing is
written and `failbit` is set; otherwise the characters go to the device, and `badbit` is set
when the device does not take them. Setting a flag goes through `setstate`, so it raises when
the exception mask asks for it. -/
def OStream.insert (env : Env) (os : OStream) (seq : String) : Except Exn OStream :=
  if os.rdstate = IoState.goodbit then
    if env.accepts os.written seq then
      .ok { os with written := os.written ++ seq }
    else
      os.setstate { badbit := true, failbit := false, eofbit := false }
  else
    os.setstate { badbit := false, failbit := true, eofbit := false }

/-- The construction of a `std::string` holding the characters of `s` (copy constructor, or
conversion from a literal): `std::bad_alloc` when the free store does not supply the storage. -/
def copyString (env : Env) (s : String) : Except Exn String :=
  if env.allocOk s.length then .ok s else .error (.thrown "std::bad_alloc")

/-- `Instrument::Instrument(std::string sound) : sound(sound){}` over the library calls:
the member is copy-constructed from the parameter; an exception of the copy leaves the
constructor, which has no handler. -/
def Instrument.ctorIn (env : Env) (sound : String) (os : OStream) :
    Except Exn (OutcomeIn Unit) :=
  match copyString env sound with
  | .error e => .error e
  | .ok member => .ok { ret := (), obj := { sound := member }, os := os }

/-- `void Instrument::play() { std::cout << this->sound << "\n"; }` over the library calls:
two insertions, the second on the stream the first returns; no handler. -/
def Instrument.playIn (env : Env) (self : Instrument) (os : OStream) :
    Except Exn (OutcomeIn Unit) :=
  match os.insert env self.sound with
  | .error e => .error e
  | .ok os1 =>
    match os1.insert env "\n" with
    | .error e => .error e
    | .ok os2 => .ok { ret := (), obj := self, os := os2 }

/-- An environment in trouble: the free store supplies nothing beyond fifteen characters and the
device takes no character at all. -/
def Env.exhausted : Env :=
  { allocOk := fun n => decide (n ≤ 15), accepts := fun _ _ => false }

/-- An environment without trouble: every allocation and every write succeeds. -/
def Env.plentiful : Env :=
  { allocOk := fun _ => true, accepts := fun _ _ => true }

/-- `std::cout` as the program finds it: nothing written, good state, default exception mask. -/
def OStream.initial : OStream :=
  { written := "", rdstate := IoState.goodbit, exceptions := IoState.goodbit }

/-! ## Helper lemmas -/

theorem foldl_append_eq (l : List String) (acc : String) :
    l.foldl (fun r s => r ++ s) acc = acc ++ l.foldl (fun r s => r ++ s) "" := by
  induction l generalizing acc with
  | nil => simp
  | cons x xs ih =>
    simp only [List.foldl_cons]
    rw [ih (acc ++ x), ih ("" ++ x), String.empty_append, String.append_assoc]

theorem join_cons (x : String) (xs : List String) :
    String.join (x :: xs) = x ++ String.join xs := by
  unfold String.join
  simp only [List.foldl_cons]
  rw [foldl_append_eq, String.empty_append]

/-- Playing `n` times returns the object unchanged and appends `n` lines. -/
theorem playTimes_eq (n : Nat) (self : Instrument) (cout : Cout) :
    playTimes n self cout =
      .ok { ret := (), obj := self,
            cout := cout ++ String.join (List.replicate n (self.sound ++ "\n")) } := by
  induction n generalizing cout with
  | zero => simp [playTimes, String.join]
  | succ n ih =>
    simp only [playTimes, Instrument.play, andThen, ih, List.replicate_succ, join_cons]
    simp [String.append_assoc]

/-- On a good stream whose device takes what is written, `playIn` is `play`: the same object,
and the characters written are those of the first part of the file. -/
theorem playIn_agrees_with_play (self : Instrument) (o : Cout) (mask : IoState) :
    (Instrument.playIn Env.plentiful self
        { written := o, rdstate := IoState.goodbit, exceptions := mask }).map
      (fun r => ({ ret := r.ret, obj := r.obj, cout := r.os.written } : Outcome Unit)) =
    Instrument.play self o := by
  simp [Instrument.playIn, OStream.insert, Env.plentiful, Instrument.play, Except.map]

/-- When the free store supplies the copy, `ctorIn` is `ctor`. -/
theorem ctorIn_agrees_with_ctor (s : String) (os : OStream) :
    (Instrument.ctorIn Env.plentiful s os).map
      (fun r => ({ ret := r.ret, obj := r.obj, cout := r.os.written } : Outcome Unit)) =
    Instrument.ctor s os.written := by
  simp [Instrument.ctorIn, copyString, Env.plentiful, Instrument.ctor, Except.map]

/-- The error branches are live: with no free store left the constructor leaves by
`std::bad_alloc` on a sound of sixteen characters, and with `badbit` in the exception mask
`play()` leaves by `std::ios_base::failure` when the device refuses the write. -/
theorem error_branches_reachable :
    Instrument.ctorIn Env.exhausted "Bwaaaaaaaaaaaahp" OStream.initial =
      .error (.thrown "std::bad_alloc") ∧
    Instrument.playIn Env.exhausted { sound := "Tuba" }
        { written := "", rdstate := IoState.goodbit,
          exceptions := { badbit := true, failbit := false, eofbit := false } } =
      .error (.thrown "std::ios_base::failure") := by
  constructor
  · rfl
  · rfl

/-! ## Properties of the class -/

/-- C1: for every text `s` and every prior content `o` of standard output, constructing an
`Instrument` with `s` and then calling `play()` succeeds and leaves the stream equal to
`o ++ s ++ "\n"`: the stored sound followed by one line terminator and nothing else. In
particular, on an empty stream, the empty sound gives exactly `"\n"` and `"Tuba"` gives
exactly `"Tuba\n"`. -/
theorem construct_play_writes_sound_line (s : String) (o : Cout) :
    constructAndPlay s o = .ok { ret := (), obj := { sound := s }, cout := o ++ s ++ "\n" } ∧
    constructAndPlay "" o = .ok { ret := (), obj := { sound := "" }, cout := o ++ "\n" } ∧
    constructAndPlay "" "" = .ok { ret := (), obj := { sound := "" }, cout := "\n" } ∧
    constructAndPlay "Tuba" "" =
      .ok { ret := (), obj := { sound := "Tuba" }, cout := "Tuba\n" } := by
  refine ⟨rfl, ?_, rfl, rfl⟩
  simp [constructAndPlay, andThen, Instrument.ctor, Instrument.play]

/-- C2: constructing an `Instrument` with no argument and then calling `play()` succeeds and
appends exactly `"Bwaahp\n"` to standard output; on an empty stream the stream is then exactly
`"Bwaahp\n"`. -/
theorem default_construct_play_writes_bwaahp (o : Cout) :
    constructDefaultAndPlay o =
      .ok { ret := (), obj := { sound := "Bwaahp" }, cout := o ++ "Bwaahp\n" } ∧
    constructDefaultAndPlay "" =
      .ok { ret := (), obj := { sound := "Bwaahp" }, cout := "Bwaahp\n" } := by
  refine ⟨?_, rfl⟩
  simp only [constructDefaultAndPlay, andThen, Instrument.ctorDefault, Instrument.ctor,
    Instrument.play, String.append_assoc]
  rfl

/-- C3: the no-argument constructor is equivalent to the explicit-sound constructor applied to
`"Bwaahp"`: both succeed, the two objects are equal (sound `"Bwaahp"`), neither writes to the
stream, and for every prior output content `play()` on either object has the same result. -/
theorem default_ctor_equiv_explicit_bwaahp (o : Cout) :
    Instrument.ctorDefault o = Instrument.ctor "Bwaahp" o ∧
    Instrument.ctorDefault o = .ok { ret := (), obj := { sound := "Bwaahp" }, cout := o } ∧
    Instrument.ctor "Bwaahp" o = .ok { ret := (), obj := { sound := "Bwaahp" }, cout := o } ∧
    (∀ o2 : Cout,
      andThen (Instrument.ctorDefault o) (fun i _ => Instrument.play i o2) =
        andThen (Instrument.ctor "Bwaahp" o) (fun i _ => Instrument.play i o2)) ∧
    constructDefaultAndPlay o = constructAndPlay "Bwaahp" o :=
  ⟨rfl, rfl, rfl, fun _ => rfl, rfl⟩

/-- C4: for every text `s` (the empty text included) the explicit-sound constructor succeeds
with an object whose `sound` is exactly `s` and leaves standard output unchanged; the default
constructor does the same with `sound` equal to `"Bwaahp"`. So `sound` is assigned on every
construction path. -/
theorem ctor_assigns_sound (s : String) (o : Cout) :
    Instrument.ctor s o = .ok { ret := (), obj := { sound := s }, cout := o } ∧
    Instrument.ctor "" o = .ok { ret := (), obj := { sound := "" }, cout := o } ∧
    Instrument.ctorDefault o = .ok { ret := (), obj := { sound := "Bwaahp" }, cout := o } :=
  ⟨rfl, rfl, rfl⟩

/-- C5: two instruments do not affect each other. For all objects `a` and `b`, `a.play()` leaves
`a` as it was and writes the sound of `a`, and `a.play(); b.play();` leaves both objects as they
were and appends the line of `a` and then the line of `b`. For all texts `s` and `t`, constructing
`a` with `s` and `b` with `t` and playing `a` then `b` appends `s ++ "\n" ++ t ++ "\n"`, playing
`b` then `a` appends `t ++ "\n" ++ s ++ "\n"`, and afterwards `a` still sounds `s` and `b` still
sounds `t`. -/
theorem instruments_independent (s t : String) (a b : Instrument) (o : Cout) :
    playBoth a b o =
      .ok { a := a, b := b, cout := o ++ (a.sound ++ "\n" ++ b.sound ++ "\n") } ∧
    constructTwoAndPlay s t true o =
      .ok { a := { sound := s }, b := { sound := t },
            cout := o ++ (s ++ "\n" ++ t ++ "\n") } ∧
    constructTwoAndPlay s t false o =
      .ok { a := { sound := s }, b := { sound := t },
            cout := o ++ (t ++ "\n" ++ s ++ "\n") } := by
  refine ⟨?_, ?_, ?_⟩ <;>
    simp [constructTwoAndPlay, playBoth, Instrument.ctor, Instrument.play, String.append_assoc]

/-- C6: destroying an `Instrument`, whatever its sound, succeeds and leaves standard output
unchanged, also right after construction. -/
theorem dtor_no_output (self : Instrument) (s : String) (o : Cout) :
    Instrument.dtor self o = .ok o ∧ constructAndDestroy s o = .ok o :=
  ⟨rfl, rfl⟩

/-- C8: `play()` does not modify the object: after `play()` on an object with sound `s` the
object is the same and one line `s ++ "\n"` has been appended; so `n` calls in a row succeed,
leave the object the same and append exactly `n` copies of `s ++ "\n"`, for every `n`. -/
theorem play_preserves_object (n : Nat) (self : Instrument) (o : Cout) :
    Instrument.play self o =
      .ok { ret := (), obj := self, cout := o ++ self.sound ++ "\n" } ∧
    playTimes n self o =
      .ok { ret := (), obj := self,
            cout := o ++ String.join (List.replicate n (self.sound ++ "\n")) } ∧
    playTimes 3 { sound := "Tuba" } "" =
      .ok { ret := (), obj := { sound := "Tuba" }, cout := "Tuba\nTuba\nTuba\n" } :=
  ⟨rfl, playTimes_eq n self o, rfl⟩

end CSD2
